import Mathlib

/-!
Verification of the grid-marker preprocessor in `mdx_grid.py`.

This file is a shallow embedding of the marker-recognition and structural
parsing core of the `markdown-grid` extension (`mdx_grid.py`): the marker
classifier regexes (`Patterns`), the argument parser
(`Parsers.parse_row_args`, `Parsers.expand_shortcuts`), the stack machine
(`GridPreprocessor.parse_markers`), the style propagator
(`GridPreprocessor.populate_cmd_params`), and the marker rewriter
(`GridPreprocessor.replace_markers`), together with the driver
(`GridPreprocessor.run`).

Python exceptions are modelled with `Except PyErr`; Python dicts keyed by
line numbers are modelled as association lists with distinct keys in
insertion order; Python's dynamically-typed `style` attribute of
`GridCmdInfo` (absent until assigned, then either a string or `None`) is
modelled as `Option (Option String)`.
-/

set_option linter.unusedVariables false

/-- Python exceptions that the embedded code can raise. -/
inductive PyErr where
  /-- Python `AttributeError`, e.g. reading the nonexistent `GridConf.BOOTSTRAP`. -/
  | attributeError : PyErr
  /-- Python `KeyError`: dict lookup of a missing key, e.g. `cmds[-1]`. -/
  | keyError : PyErr
  /-- Python `IndexError`: `list.pop()` from an empty list, or `list[-1]` on an
  empty list, or list assignment out of range. -/
  | indexError : PyErr
deriving DecidableEq, Repr

/-- The character class matched by Python's `\s` in the source's regexes
(compiled with `re.UNICODE`): ASCII whitespace plus the Unicode
whitespace characters.  `str.split()` in `Parsers.parse_row_args` splits
on the same class. -/
def pySpaceChars : List Char :=
  [' ', '\t', '\n', '\r', '\x0b', '\x0c',
   '\x1c', '\x1d', '\x1e', '\x1f', '\u0085',
   '\u00a0', '\u1680', '\u2000', '\u2001', '\u2002',
   '\u2003', '\u2004', '\u2005', '\u2006', '\u2007',
   '\u2008', '\u2009', '\u200a', '\u2028', '\u2029',
   '\u202f', '\u205f', '\u3000']

/-- Membership test for the class above. -/
def isPySpace (c : Char) : Bool :=
  pySpaceChars.contains c

/-- Consume a maximal run of whitespace: one `\s*` in a position where the
following token of the pattern cannot start with a whitespace character
(true at every `\s*` of the three marker regexes), so greedy matching is
deterministic. -/
def dropWs (l : List Char) : List Char :=
  l.dropWhile isPySpace

/-- Consume the literal keyword `kw` (given in lowercase) case-insensitively
(the patterns are compiled with `re.IGNORECASE`).  Returns the rest of the
input, or `none` if the keyword is not there. -/
def dropToken : List Char → List Char → Option (List Char)
  | [], l => some l
  | _ :: _, [] => none
  | k :: ks, c :: cs => if c.toLower == k then dropToken ks cs else none

/-- The character class `[a-z\d,-_\:\s]` of the row-open regex's argument
group, under `re.IGNORECASE`: letters, digits, the `,`..`_` range
(codepoints 44 to 95, which contains `-`, `.`, digits, `:`, `;`, uppercase
letters, `_` among others), the escaped colon, and whitespace. -/
def clsChar (c : Char) : Bool :=
  ('a' ≤ c && c ≤ 'z') || ('A' ≤ c && c ≤ 'Z') || c.isDigit ||
  (44 ≤ c.toNat && c.toNat ≤ 95) || c == ':' || isPySpace c

/-- The suffix pattern `--\s*$` that must follow the argument group of the
row-open regex: the literal `--` followed by only whitespace. -/
def tailMatch : List Char → Bool
  | '-' :: '-' :: rest => rest.all isPySpace
  | _ => false

/-- Greedy extent of the argument group `([a-z\d,-_\:\s]*)` in
`row_open`: the largest `j` such that the first `j` characters all lie in
the class and the remainder is `--\s*$`.  Because the class contains `\s`,
Python's backtracking (maximal group first, shrinking until the tail
matches) yields exactly this split. -/
def maxSplit (r : List Char) : Option Nat :=
  (List.range (r.length + 1)).reverse.find?
    (fun j => (r.take j).all clsChar && tailMatch (r.drop j))

/-- Embedding of `Patterns.row_open = ^\s*--\s*row\s*([a-z\d,-_\:\s]*)\s*--\s*$`
(flags `re.UNICODE | re.IGNORECASE | re.MULTILINE`), applied with
`re.match` to one newline-free document line, so `^` is the start and `$`
the end of the line.  Returns the text captured by group 1, or `none` when
the line is not a row-open marker.  The leading `\s*` before the group is
greedy, so the capture starts at the first non-whitespace character after
`row`. -/
def rowOpenMatch (l : List Char) : Option (List Char) :=
  match dropToken ['-', '-'] (dropWs l) with
  | none => none
  | some r0 =>
    match dropToken ['r', 'o', 'w'] (dropWs r0) with
    | none => none
    | some r1 =>
      match maxSplit (dropWs r1) with
      | none => none
      | some j => some ((dropWs r1).take j)

/-- Embedding of `Patterns.row_close = ^\s*--\s*end\s*--\s*$` on one newline-free line. -/
def rowCloseMatch (l : List Char) : Bool :=
  match dropToken ['-', '-'] (dropWs l) with
  | none => false
  | some r0 =>
    match dropToken ['e', 'n', 'd'] (dropWs r0) with
    | none => false
    | some r1 =>
      match dropToken ['-', '-'] (dropWs r1) with
      | none => false
      | some r2 => r2.all isPySpace

/-- Embedding of `Patterns.col_sep = ^\s*--\s*$` on one newline-free line. -/
def colSepMatch (l : List Char) : Bool :=
  match dropToken ['-', '-'] (dropWs l) with
  | none => false
  | some r0 => r0.all isPySpace

/-- The four possible classifications of a document line (§4.1 of the
design: `RowOpenMarker(argsText)`, `RowCloseMarker`, `ColSeparatorMarker`,
`NotAMarker`). -/
inductive Marker where
  | rowOpen (argsText : String) : Marker
  | rowClose : Marker
  | colSep : Marker
  | notAMarker : Marker
deriving DecidableEq, Repr

/-- Classify one line, testing the patterns in the order the source's
`parse_markers` does (`row_open`, then `row_close`, then `col_sep`). -/
def classify (line : String) : Marker :=
  match rowOpenMatch line.data with
  | some args => Marker.rowOpen (String.mk args)
  | none =>
    if rowCloseMatch line.data then Marker.rowClose
    else if colSepMatch line.data then Marker.colSep
    else Marker.notAMarker

example : classify "-- row --" = Marker.rowOpen "" := by decide
example : classify "--row span4, span2--" = Marker.rowOpen "span4, span2" := by decide
example : classify "-- row a, b --" = Marker.rowOpen "a, b " := by decide
example : classify " -- End  -- " = Marker.rowClose := by decide
example : classify "  --  " = Marker.colSep := by decide
example : classify "hello" = Marker.notAMarker := by decide
example : classify "-- end -- x" = Marker.notAMarker := by decide
example : classify "a --" = Marker.notAMarker := by decide

/-! ## Data model: grid commands and their text form -/

/-- The four grid command types (`class GridCmd`). -/
inductive GridCmd where
  | ROW_OPEN : GridCmd
  | ROW_CLOSE : GridCmd
  | COL_OPEN : GridCmd
  | COL_CLOSE : GridCmd
deriving DecidableEq, Repr

/-- Embedding of `GridCmd.get_name` (total on the four commands; the source's
`else: raise` branch is unreachable for genuine command values). -/
def GridCmd.get_name : GridCmd → String
  | GridCmd.ROW_OPEN => "row"
  | GridCmd.ROW_CLOSE => "endrow"
  | GridCmd.COL_OPEN => "col"
  | GridCmd.COL_CLOSE => "endcol"

/-- Embedding of `class GridCmdInfo`: a command tag plus the `style` attribute, which
`__init__` does not create.  `style = none` means the attribute is absent
(so `getattr(self, 'style', '')` yields `""`); `style = some v` means
`cmd.style = v` was executed, where `v : Option String` is a Python string
or `None`. -/
structure GridCmdInfo where
  cmdtype : GridCmd
  style : Option (Option String) := none
deriving DecidableEq, Repr

/-- Embedding of `GridCmdInfo.__str__`: the command name, plus `"(%s)" % getattr(self,
'style', '')` when the command is `COL_OPEN`.  `"%s" % None` renders as
`"None"`. -/
def GridCmdInfo.str (c : GridCmdInfo) : String :=
  let params :=
    if c.cmdtype == GridCmd.COL_OPEN then
      "(" ++ (match c.style with
              | none => ""
              | some none => "None"
              | some (some s) => s) ++ ")"
    else ""
  GridCmd.get_name c.cmdtype ++ params

/-! ## Python dicts keyed by line numbers

`parse_markers` only ever assigns keys taken from `range(len(lines))`, so
the dicts are modelled as association lists with `Nat` keys, kept in
insertion order with no duplicate keys (`insertD` updates in place when
the key is present, else appends). -/

/-- Python `d[k]` lookup returning `none` for a missing key. -/
def lookupD {α : Type} (d : List (Nat × α)) (k : Nat) : Option α :=
  (d.find? (fun p => p.1 == k)).map (fun p => p.2)

/-- Python `d[k] = v`: update in place if `k` is a key, else append. -/
def insertD {α : Type} (d : List (Nat × α)) (k : Nat) (v : α) : List (Nat × α) :=
  if (d.find? (fun p => p.1 == k)).isSome then
    d.map (fun p => if p.1 == k then (k, v) else p)
  else d ++ [(k, v)]

/-- Rows mapping: row-open line number to parsed column style list. -/
abbrev RowsMap := List (Nat × List String)

/-- Commands mapping: marker line number to its command sequence. -/
abbrev CmdsMap := List (Nat × List GridCmdInfo)

/-- Row-to-column mapping: row-open line number to column line numbers. -/
abbrev R2cMap := List (Nat × List Nat)

/-! ## `Parsers`: argument parsing -/

/-- Embedding of `Patterns.re_spnoff = ^\s*(\d+)(\s*\:\s*(\d+))?\s*$` as a whole-string
match.  Returns the span digits and, when the optional group participated,
the offset digits.  The leading `(\d+)` is greedy and deterministic here:
shrinking it leaves a digit where only `:`, whitespace or the end may
follow. -/
def spnoffMatch (l : List Char) : Option (List Char × Option (List Char)) :=
  let r := dropWs l
  let s := r.takeWhile Char.isDigit
  let r1 := r.dropWhile Char.isDigit
  if s.isEmpty then none
  else
    match dropWs r1 with
    | [] => some (s, none)
    | ':' :: r3 =>
      let r4 := dropWs r3
      let o := r4.takeWhile Char.isDigit
      let r5 := r4.dropWhile Char.isDigit
      if o.isEmpty then none
      else if r5.all isPySpace then some (s, some o) else none
    | _ => none

/-- Embedding of `Parsers.expand_shortcuts(arg, is_bs)`: when `is_bs` is true,
`re_spnoff.sub(expand, arg)` replaces a whole-string span/offset shortcut
by `'span' + s + ((' offset' + o) if o else '')`; since the pattern is
anchored at both ends, either the entire string is replaced or nothing
matches and the argument passes through unchanged. -/
def Parsers.expand_shortcuts (arg : String) (is_bs : Bool) : String :=
  if is_bs then
    match spnoffMatch arg.data with
    | some (s, someO) =>
      "span" ++ String.mk s ++
        (match someO with
         | some o => " offset" ++ String.mk o
         | none => "")
    | none => arg
  else arg

/-- Python `arg.split()` (no separator): the maximal whitespace-free groups of
the string, left to right (`cur` accumulates the current group in
reverse). -/
def pySplitWsGo : List Char → List Char → List (List Char)
  | [], cur => if cur.isEmpty then [] else [cur.reverse]
  | c :: cs, cur =>
    if isPySpace c then
      if cur.isEmpty then pySplitWsGo cs []
      else cur.reverse :: pySplitWsGo cs []
    else pySplitWsGo cs (c :: cur)

/-- Python `arg.split(',')`: split at every comma, keeping empty pieces (the
split of the empty string is `[""]`). -/
def pySplitComma : List Char → List (List Char)
  | [] => [[]]
  | c :: cs =>
    if c == ',' then [] :: pySplitComma cs
    else
      match pySplitComma cs with
      | [] => [[c]]
      | g :: gs => (c :: g) :: gs

/-- Python `' '.join(arg.split())`: split on whitespace runs, drop empty pieces,
rejoin with single spaces (trims and collapses internal whitespace). -/
def collapseWs (s : String) : String :=
  String.intercalate " " ((pySplitWsGo s.data []).map String.mk)

/-- Embedding of `Parsers.parse_row_args(arguments, profile=None)`.

The function first splits on `','` and normalizes whitespace, and maps a
sole empty token to an empty list; but its next statement is
`is_bs = (profile == GridConf.BOOTSTRAP['name'][0])`, and class `GridConf`
has no attribute `BOOTSTRAP` (its attributes are `DEFAULT_PROFILE`,
`DESCRIPTIONS`, `PROFILES`, `get`), so every call raises
`AttributeError` before returning. -/
def Parsers.parse_row_args (arguments : String) (profile : Option String) :
    Except PyErr (List String) :=
  let args := (pySplitComma arguments.data).map (fun t => collapseWs (String.mk t))
  let args := match args with
              | [s] => if s == "" then [] else args
              | _ => args
  -- is_bs = (profile == GridConf.BOOTSTRAP['name'][0])  -- AttributeError
  Except.error PyErr.attributeError

example : Parsers.expand_shortcuts "4:1" true = "span4 offset1" := by decide
example : Parsers.expand_shortcuts "6" true = "span6" := by decide
example : Parsers.expand_shortcuts "8" false = "8" := by decide
example : Parsers.expand_shortcuts " 4 : 2 " true = "span4 offset2" := by decide
example : Parsers.expand_shortcuts "span4" true = "span4" := by decide

/-! ## `GridPreprocessor.parse_markers`: the stack machine -/

/-- The mutable state of one `parse_markers` pass: the row stack and the
three result mappings, all created empty at the start of the pass. -/
structure PMState where
  row_stack : List Nat
  rows : RowsMap
  cmds : CmdsMap
  r2c : R2cMap
deriving DecidableEq, Repr

/-- The empty initial state of a parse pass. -/
def initState : PMState := PMState.mk [] [] [] []

/-- Process one document line (the body of the `for line_num in
range(len(lines))` loop of `parse_markers`), testing `row_open`, then
`row_close`, then `col_sep`.

* row-open: push the line on the stack, parse the captured arguments
  (which raises `AttributeError`, see `Parsers.parse_row_args`), record
  `r2c[row_stack[-1]] = [line_num]` (the top of stack is the line just
  pushed) and `cmds[line_num] = [ROW_OPEN, COL_OPEN]`;
* row-close: record `cmds[line_num] = [COL_CLOSE, ROW_CLOSE]`, then
  `row_stack.pop()` (raises `IndexError` on an empty stack);
* col-sep: `r2c[row_stack[-1]].append(line_num)` (raises `IndexError` on
  an empty stack; the key is present for every pushed row) and
  `cmds[line_num] = [COL_CLOSE, COL_OPEN]`;
* anything else: no change. -/
def pmStep (profile : Option String) (st : PMState) (line_num : Nat) (line : String) :
    Except PyErr PMState :=
  match rowOpenMatch line.data with
  | some args =>
    let stack := st.row_stack ++ [line_num]
    match Parsers.parse_row_args (String.mk args) profile with
    | Except.error e => Except.error e
    | Except.ok parsed =>
      let rows := insertD st.rows line_num parsed
      let r2c := insertD st.r2c line_num [line_num]
      let cmds := insertD st.cmds line_num
        [GridCmdInfo.mk GridCmd.ROW_OPEN none, GridCmdInfo.mk GridCmd.COL_OPEN none]
      Except.ok (PMState.mk stack rows cmds r2c)
  | none =>
    if rowCloseMatch line.data then
      let cmds := insertD st.cmds line_num
        [GridCmdInfo.mk GridCmd.COL_CLOSE none, GridCmdInfo.mk GridCmd.ROW_CLOSE none]
      match st.row_stack.getLast? with
      | none => Except.error PyErr.indexError
      | some _ => Except.ok (PMState.mk st.row_stack.dropLast st.rows cmds st.r2c)
    else if colSepMatch line.data then
      match st.row_stack.getLast? with
      | none => Except.error PyErr.indexError
      | some top =>
        match lookupD st.r2c top with
        | none => Except.error PyErr.keyError
        | some cols =>
          let r2c := insertD st.r2c top (cols ++ [line_num])
          let cmds := insertD st.cmds line_num
            [GridCmdInfo.mk GridCmd.COL_CLOSE none, GridCmdInfo.mk GridCmd.COL_OPEN none]
          Except.ok (PMState.mk st.row_stack st.rows cmds r2c)
    else Except.ok st

/-- The scan loop of `parse_markers`, with `n` the number of the first
line of `ls` in the document. -/
def pmLoop (profile : Option String) : PMState → Nat → List String → Except PyErr PMState
  | st, _, [] => Except.ok st
  | st, n, line :: rest =>
    match pmStep profile st n line with
    | Except.error e => Except.error e
    | Except.ok st1 => pmLoop profile st1 (n + 1) rest

/-- Embedding of `GridPreprocessor.parse_markers(lines, profile=None)`.

After the scan, `if row_stack:` enters the recovery loop whose first
statement is `cmds[-1].append(...)`; `cmds` is a dict whose keys are the
marker line numbers (all drawn from `range(len(lines))`), so the key `-1`
is never present and the read raises `KeyError`. -/
def GridPreprocessor.parse_markers (lines : List String) (profile : Option String) :
    Except PyErr (RowsMap × CmdsMap × R2cMap) :=
  match pmLoop profile initState 0 lines with
  | Except.error e => Except.error e
  | Except.ok st =>
    if st.row_stack.isEmpty then Except.ok (st.rows, st.cmds, st.r2c)
    else Except.error PyErr.keyError

/-! ## `GridPreprocessor.populate_cmd_params`: the style propagator -/

/-- Python `styles.pop()` guarded by `if styles`: pop the last element when the
list is nonempty. -/
def pyPopLast (l : List String) : Option (String × List String) :=
  match l.getLast? with
  | none => none
  | some x => some (x, l.dropLast)

/-- The inner `for cmd in cmds[col_line_num]` loop: walk the command list,
set the `style` of the first `COL_OPEN` found (popping from `styles` when
it is nonempty, else using `def_col_style`) and stop (`break`).  Returns
the updated command list and the remaining styles. -/
def assignFirst (cs : List GridCmdInfo) (styles : List String)
    (def_col_style : Option String) : List GridCmdInfo × List String :=
  match cs with
  | [] => ([], styles)
  | c :: rest =>
    if c.cmdtype == GridCmd.COL_OPEN then
      match pyPopLast styles with
      | some (sty, styles1) => (GridCmdInfo.mk c.cmdtype (some (some sty)) :: rest, styles1)
      | none => (GridCmdInfo.mk c.cmdtype (some def_col_style) :: rest, styles)
    else
      let r := assignFirst rest styles def_col_style
      (c :: r.1, r.2)

/-- The `for col_line_num in r2c[row_line_num]` loop: look up each column
line's commands (`KeyError` if the line is not a key of `cmds`), assign
its first `COL_OPEN` a style and store the updated list back. -/
def procCols (cmds : CmdsMap) (styles : List String) (def_col_style : Option String) :
    List Nat → Except PyErr (CmdsMap × List String)
  | [] => Except.ok (cmds, styles)
  | col :: cols =>
    match lookupD cmds col with
    | none => Except.error PyErr.keyError
    | some cs =>
      let r := assignFirst cs styles def_col_style
      procCols (insertD cmds col r.1) r.2 def_col_style cols

/-- The `for row_line_num in rows` loop of `populate_cmd_params`:
`styles = rows[row_line_num][::-1]` (a reversed copy, so `pop()` takes the
styles in declaration order), then process the row's column lines. -/
def popLoop (r2c : R2cMap) (def_col_style : Option String) :
    List (Nat × List String) → CmdsMap → Except PyErr CmdsMap
  | [], cmds => Except.ok cmds
  | (row_line, rstyles) :: rest, cmds =>
    match lookupD r2c row_line with
    | none => Except.error PyErr.keyError
    | some cols =>
      match procCols cmds rstyles.reverse def_col_style cols with
      | Except.error e => Except.error e
      | Except.ok r => popLoop r2c def_col_style rest r.1

/-- Embedding of `GridPreprocessor.populate_cmd_params(rows, cmds, r2c,
def_col_style="")`: enrich every column-open command with its style and
return the commands mapping.  `def_col_style : Option String` because the
caller `run` passes `self.get_conf('default_col_style')`, which can be
Python `None`. -/
def GridPreprocessor.populate_cmd_params (rows : RowsMap) (cmds : CmdsMap) (r2c : R2cMap)
    (def_col_style : Option String) : Except PyErr CmdsMap :=
  popLoop r2c def_col_style rows cmds

/-! ## `GridPreprocessor.replace_markers`: the marker rewriter -/

/-- The text a marker line is rewritten to:
`"\n<!--grid:%s-->" % ';'.join(str(command) for command in cmds[line_num])`. -/
def lineTag (cs : List GridCmdInfo) : String :=
  "\n<!--grid:" ++ String.intercalate ";" (cs.map GridCmdInfo.str) ++ "-->"

/-- Embedding of `GridPreprocessor.replace_markers(lines, cmds)`: for each key of the
commands mapping, overwrite that line of the document with its tag
(`lines[line_num] = ...`; line numbers at or beyond `len(lines)` would
raise `IndexError`; the keys produced by `parse_markers` are always in
range). -/
def GridPreprocessor.replace_markers (lines : List String) :
    CmdsMap → Except PyErr (List String)
  | [] => Except.ok lines
  | (line_num, cs) :: rest =>
    if line_num < lines.length then
      GridPreprocessor.replace_markers (lines.set line_num (lineTag cs)) rest
    else Except.error PyErr.indexError

/-! ## `GridPreprocessor.run`: the driver -/

/-- The preprocessor configuration: a dict from parameter names to
`[value, description]` pairs (the shape built by `GridConf.get`). -/
abbrev GridConfig := List (String × (String × String))

/-- Embedding of `GridPreprocessor.get_conf(key)`: `self.config[key][0]` if the key is
present, else Python `None`. -/
def GridPreprocessor.get_conf (config : GridConfig) (key : String) : Option String :=
  (config.find? (fun p => p.1 == key)).map (fun p => p.2.1)

/-- Embedding of `GridPreprocessor.run(lines)`: parse the markers, populate the command
parameters, rewrite the marker lines. -/
def GridPreprocessor.run (config : GridConfig) (lines : List String) :
    Except PyErr (List String) :=
  let profile := GridPreprocessor.get_conf config "name"
  match GridPreprocessor.parse_markers lines profile with
  | Except.error e => Except.error e
  | Except.ok (rows, cmds, r2c) =>
    let style := GridPreprocessor.get_conf config "default_col_style"
    match GridPreprocessor.populate_cmd_params rows cmds r2c style with
    | Except.error e => Except.error e
    | Except.ok cmds1 => GridPreprocessor.replace_markers lines cmds1

example : GridPreprocessor.parse_markers ["hello", "world"] none =
    Except.ok ([], [], []) := rfl
example : GridPreprocessor.parse_markers ["-- row --"] none =
    Except.error PyErr.attributeError := rfl
example : GridPreprocessor.parse_markers ["-- end --"] none =
    Except.error PyErr.indexError := rfl
example : GridPreprocessor.parse_markers ["--"] none =
    Except.error PyErr.indexError := rfl
example : GridPreprocessor.run [] ["a", "b"] = Except.ok ["a", "b"] := rfl

/-! ## Lemmas about the marker patterns -/

lemma dropWs_append (u l : List Char) (hu : u.all isPySpace = true) :
    dropWs (u ++ l) = dropWs l := by
  induction u with
  | nil => rfl
  | cons c cs ih =>
    simp only [List.all_cons, Bool.and_eq_true] at hu
    show List.dropWhile isPySpace (c :: (cs ++ l)) = dropWs l
    rw [List.dropWhile_cons_of_pos hu.1]
    exact ih hu.2

lemma dropWs_all (l : List Char) (h : l.all isPySpace = true) : dropWs l = [] := by
  have := dropWs_append l [] h
  simpa using this

lemma dropWs_cons_of_nonspace (c : Char) (l : List Char) (h : isPySpace c = false) :
    dropWs (c :: l) = c :: l := by
  show List.dropWhile isPySpace (c :: l) = c :: l
  rw [List.dropWhile_cons_of_neg (by simp [h])]

lemma dropToken_cons {k : Char} {ks l r : List Char}
    (h : dropToken (k :: ks) l = some r) :
    ∃ c cs, l = c :: cs ∧ c.toLower = k ∧ dropToken ks cs = some r := by
  cases l with
  | nil => simp [dropToken] at h
  | cons c cs =>
    by_cases hc : (c.toLower == k) = true
    · exact ⟨c, cs, rfl, by simpa using hc, by simpa [dropToken, hc] using h⟩
    · simp [dropToken, hc] at h

/-- A whitespace character is unchanged by `Char.toLower`. -/
lemma space_toLower {c : Char} (h : isPySpace c = true) : c.toLower = c := by
  have hm : c ∈ pySpaceChars := List.elem_iff.mp h
  have hall : ∀ x ∈ pySpaceChars, Char.toLower x = x := by decide
  exact hall c hm

/-- A character whose lowercase form is a non-space character is itself
not whitespace. -/
lemma nonspace_of_toLower {c k : Char} (hk : c.toLower = k)
    (h2 : isPySpace k = false) : isPySpace c = false := by
  cases hsp : isPySpace c with
  | false => rfl
  | true =>
    exfalso
    have hck : c = k := by rw [← hk, space_toLower hsp]
    rw [hck] at hsp
    rw [hsp] at h2
    cases h2

/-- A successful `row_close` match starts, after `^\s*--\s*`, with a
character lowercasing to `e`. -/
lemma rowClose_parts {l : List Char} (h : rowCloseMatch l = true) :
    ∃ r0, dropToken ['-', '-'] (dropWs l) = some r0 ∧
      ∃ c cs, dropWs r0 = c :: cs ∧ c.toLower = 'e' := by
  unfold rowCloseMatch at h
  split at h
  · cases h
  · rename_i r0 heq0
    split at h
    · cases h
    · rename_i r1 heq1
      obtain ⟨c, cs, hl, hc, _⟩ := dropToken_cons heq1
      exact ⟨r0, heq0, c, cs, hl, hc⟩

/-- A successful `row_open` match starts, after `^\s*--\s*`, with a
character lowercasing to `r`. -/
lemma rowOpen_parts {l a : List Char} (h : rowOpenMatch l = some a) :
    ∃ r0, dropToken ['-', '-'] (dropWs l) = some r0 ∧
      ∃ c cs, dropWs r0 = c :: cs ∧ c.toLower = 'r' := by
  unfold rowOpenMatch at h
  split at h
  · cases h
  · rename_i r0 heq0
    split at h
    · cases h
    · rename_i r1 heq1
      obtain ⟨c, cs, hl, hc, _⟩ := dropToken_cons heq1
      exact ⟨r0, heq0, c, cs, hl, hc⟩

/-- A successful `col_sep` match is only whitespace after `^\s*--`. -/
lemma colSep_parts {l : List Char} (h : colSepMatch l = true) :
    ∃ r0, dropToken ['-', '-'] (dropWs l) = some r0 ∧ r0.all isPySpace = true := by
  unfold colSepMatch at h
  split at h
  · cases h
  · rename_i r0 heq0
    exact ⟨r0, heq0, h⟩

/-- Patterns `row_open` and `row_close` cannot match the same line. -/
lemma rowOpen_excl_rowClose {l : List Char} (h : (rowOpenMatch l).isSome = true) :
    rowCloseMatch l = false := by
  cases hrc : rowCloseMatch l with
  | false => rfl
  | true =>
    exfalso
    obtain ⟨a, ha⟩ := Option.isSome_iff_exists.mp h
    obtain ⟨r0, h0, c, cs, hl, hc⟩ := rowOpen_parts ha
    obtain ⟨r0', h0', c', cs', hl', hc'⟩ := rowClose_parts hrc
    rw [h0] at h0'
    injection h0' with he
    subst he
    rw [hl] at hl'
    injection hl' with he1 _
    subst he1
    rw [hc] at hc'
    cases hc'

/-- Patterns `row_open` and `col_sep` cannot match the same line. -/
lemma rowOpen_excl_colSep {l : List Char} (h : (rowOpenMatch l).isSome = true) :
    colSepMatch l = false := by
  cases hcs : colSepMatch l with
  | false => rfl
  | true =>
    exfalso
    obtain ⟨a, ha⟩ := Option.isSome_iff_exists.mp h
    obtain ⟨r0, h0, c, cs, hl, _⟩ := rowOpen_parts ha
    obtain ⟨r0', h0', hsp⟩ := colSep_parts hcs
    rw [h0] at h0'
    injection h0' with he
    subst he
    rw [dropWs_all r0 hsp] at hl
    cases hl

/-- Patterns `row_close` and `col_sep` cannot match the same line. -/
lemma rowClose_excl_colSep {l : List Char} (h : rowCloseMatch l = true) :
    colSepMatch l = false := by
  cases hcs : colSepMatch l with
  | false => rfl
  | true =>
    exfalso
    obtain ⟨r0, h0, c, cs, hl, _⟩ := rowClose_parts h
    obtain ⟨r0', h0', hsp⟩ := colSep_parts hcs
    rw [h0] at h0'
    injection h0' with he
    subst he
    rw [dropWs_all r0 hsp] at hl
    cases hl

lemma isPySpace_dash : isPySpace '-' = false := by decide

lemma dropToken_dashes (v : List Char) :
    dropToken ['-', '-'] ('-' :: '-' :: v) = some v := rfl

/-- Pattern `col_sep` matches `\s* -- \s*` with arbitrary surrounding whitespace. -/
lemma colSepMatch_ws (u v : List Char) (hu : u.all isPySpace = true)
    (hv : v.all isPySpace = true) :
    colSepMatch (u ++ '-' :: '-' :: v) = true := by
  unfold colSepMatch
  rw [dropWs_append u _ hu, dropWs_cons_of_nonspace _ _ isPySpace_dash,
    dropToken_dashes]
  exact hv

/-- Pattern `row_close` matches `\s* -- end -- \s*` with arbitrary surrounding
whitespace and arbitrary case of the keyword `end`. -/
lemma rowCloseMatch_ws (u v : List Char) (e n d : Char)
    (hu : u.all isPySpace = true) (hv : v.all isPySpace = true)
    (he : e.toLower = 'e') (hn : n.toLower = 'n') (hd : d.toLower = 'd') :
    rowCloseMatch (u ++ '-' :: '-' :: e :: n :: d :: '-' :: '-' :: v) = true := by
  unfold rowCloseMatch
  rw [dropWs_append u _ hu, dropWs_cons_of_nonspace _ _ isPySpace_dash,
    dropToken_dashes]
  show (match dropToken ['e', 'n', 'd'] (dropWs (e :: n :: d :: '-' :: '-' :: v)) with
        | none => false
        | some r1 =>
          match dropToken ['-', '-'] (dropWs r1) with
          | none => false
          | some r2 => r2.all isPySpace) = true
  rw [dropWs_cons_of_nonspace _ _ (nonspace_of_toLower he (by decide))]
  rw [show dropToken ['e', 'n', 'd'] (e :: n :: d :: '-' :: '-' :: v) =
        some ('-' :: '-' :: v) by simp [dropToken, he, hn, hd]]
  show (match dropToken ['-', '-'] (dropWs ('-' :: '-' :: v)) with
        | none => false
        | some r2 => r2.all isPySpace) = true
  rw [dropWs_cons_of_nonspace _ _ isPySpace_dash, dropToken_dashes]
  exact hv

/-- Pattern `row_open` matches with arbitrary leading whitespace and arbitrary
case of the keyword `row`; here with argument text `4` and capture `4`. -/
lemma rowOpenMatch_ws (u : List Char) (r o w : Char)
    (hu : u.all isPySpace = true)
    (hr : r.toLower = 'r') (ho : o.toLower = 'o') (hw : w.toLower = 'w') :
    rowOpenMatch (u ++ '-' :: '-' :: r :: o :: w :: ' ' :: '4' :: '-' :: '-' :: []) =
      some ['4'] := by
  unfold rowOpenMatch
  rw [dropWs_append u _ hu, dropWs_cons_of_nonspace _ _ isPySpace_dash,
    dropToken_dashes]
  show (match dropToken ['r', 'o', 'w']
          (dropWs (r :: o :: w :: ' ' :: '4' :: '-' :: '-' :: [])) with
        | none => none
        | some r1 =>
          match maxSplit (dropWs r1) with
          | none => none
          | some j => some (List.take j (dropWs r1))) = some ['4']
  rw [dropWs_cons_of_nonspace _ _ (nonspace_of_toLower hr (by decide))]
  rw [show dropToken ['r', 'o', 'w'] (r :: o :: w :: ' ' :: '4' :: '-' :: '-' :: []) =
        some (' ' :: '4' :: '-' :: '-' :: []) by simp [dropToken, hr, ho, hw]]
  rfl

/-- C9: the marker classifier.  The three marker patterns are pairwise
mutually exclusive on every line (so together with `NotAMarker` every
line gets exactly one classification); each pattern tolerates arbitrary
leading/trailing whitespace and is case-insensitive in its keyword; and
matching is anchored to the whole line, so marker text embedded in a
longer line does not match (concrete instances, together with internal
whitespace variation). -/
theorem marker_classifier_spec (line u v : String) (r o w e n d : Char)
    (hu : u.data.all isPySpace = true) (hv : v.data.all isPySpace = true)
    (hr : r.toLower = 'r') (ho : o.toLower = 'o') (hw : w.toLower = 'w')
    (he : e.toLower = 'e') (hn : n.toLower = 'n') (hd : d.toLower = 'd') :
    (((rowOpenMatch line.data).isSome && rowCloseMatch line.data) = false
      ∧ ((rowOpenMatch line.data).isSome && colSepMatch line.data) = false
      ∧ (rowCloseMatch line.data && colSepMatch line.data) = false)
    ∧ colSepMatch (u.data ++ '-' :: '-' :: v.data) = true
    ∧ rowCloseMatch (u.data ++ '-' :: '-' :: e :: n :: d :: '-' :: '-' :: v.data) = true
    ∧ rowOpenMatch (u.data ++ '-' :: '-' :: r :: o :: w :: ' ' :: '4' :: '-' :: '-' :: []) =
        some ['4']
    ∧ classify "--  Row  span4 , span2  --" = Marker.rowOpen "span4 , span2  "
    ∧ classify " -- eNd  -- " = Marker.rowClose
    ∧ classify "  --  " = Marker.colSep
    ∧ classify "prose -- more prose" = Marker.notAMarker
    ∧ classify "-- end -- trailing" = Marker.notAMarker
    ∧ classify "text -- row a --" = Marker.notAMarker
    ∧ classify "x--" = Marker.notAMarker := by
  refine ⟨⟨?_, ?_, ?_⟩, colSepMatch_ws u.data v.data hu hv,
    rowCloseMatch_ws u.data v.data e n d hu hv he hn hd,
    rowOpenMatch_ws u.data r o w hu hr ho hw,
    by decide, by decide, by decide, by decide, by decide, by decide, by decide⟩
  · cases hro : (rowOpenMatch line.data).isSome with
    | false => rfl
    | true => simp [rowOpen_excl_rowClose hro]
  · cases hro : (rowOpenMatch line.data).isSome with
    | false => rfl
    | true => simp [rowOpen_excl_colSep hro]
  · cases hrc : rowCloseMatch line.data with
    | false => rfl
    | true => simp [rowClose_excl_colSep hrc]

/-- Witness for `marker_classifier_spec` at a concrete line, concrete
whitespace padding and a mixed-case keyword spelling. -/
theorem marker_classifier_spec_witness :
    (((rowOpenMatch "-- row --".data).isSome && rowCloseMatch "-- row --".data) = false
      ∧ ((rowOpenMatch "-- row --".data).isSome && colSepMatch "-- row --".data) = false
      ∧ (rowCloseMatch "-- row --".data && colSepMatch "-- row --".data) = false)
    ∧ colSepMatch (" ".data ++ '-' :: '-' :: "\t ".data) = true
    ∧ rowCloseMatch (" ".data ++ '-' :: '-' :: 'E' :: 'N' :: 'd' :: '-' :: '-' :: "\t ".data) = true
    ∧ rowOpenMatch (" ".data ++ '-' :: '-' :: 'R' :: 'o' :: 'W' :: ' ' :: '4' :: '-' :: '-' :: []) =
        some ['4']
    ∧ classify "--  Row  span4 , span2  --" = Marker.rowOpen "span4 , span2  "
    ∧ classify " -- eNd  -- " = Marker.rowClose
    ∧ classify "  --  " = Marker.colSep
    ∧ classify "prose -- more prose" = Marker.notAMarker
    ∧ classify "-- end -- trailing" = Marker.notAMarker
    ∧ classify "text -- row a --" = Marker.notAMarker
    ∧ classify "x--" = Marker.notAMarker :=
  marker_classifier_spec "-- row --" " " "\t " 'R' 'o' 'W' 'E' 'N' 'd'
    (by decide) (by decide) (by decide) (by decide) (by decide)
    (by decide) (by decide) (by decide)

/-! ## Lemmas about `parse_markers` -/

/-- Every call to `Parsers.parse_row_args` raises `AttributeError`: the
referenced `GridConf.BOOTSTRAP` does not exist. -/
lemma parse_row_args_err (a : String) (p : Option String) :
    Parsers.parse_row_args a p = Except.error PyErr.attributeError := rfl

/-- From the empty state, a step can only succeed by leaving the state
unchanged: a row-open line dies in `parse_row_args` (`AttributeError`), a
row-close or col-sep line underflows the empty stack (`IndexError`). -/
lemma pmStep_ok_of_init {profile : Option String} {n : Nat} {line : String}
    {st1 : PMState} (h : pmStep profile initState n line = Except.ok st1) :
    st1 = initState := by
  unfold pmStep at h
  split at h
  · rw [parse_row_args_err] at h
    simp at h
  · split at h
    · rw [show initState.row_stack.getLast? = none from rfl] at h
      simp at h
    · split at h
      · rw [show initState.row_stack.getLast? = none from rfl] at h
        simp at h
      · injection h with h2
        exact h2.symm

/-- The scan loop, started from the empty state, can only succeed in the
empty state. -/
lemma pmLoop_ok_of_init {profile : Option String} {ls : List String} {n : Nat}
    {st1 : PMState} (h : pmLoop profile initState n ls = Except.ok st1) :
    st1 = initState := by
  induction ls generalizing n with
  | nil =>
    unfold pmLoop at h
    injection h with h2
    exact h2.symm
  | cons l rest ih =>
    unfold pmLoop at h
    split at h
    · cases h
    · rename_i stm heq
      rw [pmStep_ok_of_init heq] at h
      exact ih h

/-- Total number of commands of type `t` in a commands mapping. -/
def countCmd (t : GridCmd) (cmds : CmdsMap) : Nat :=
  (cmds.map (fun p => (p.2.filter (fun c => c.cmdtype == t)).length)).sum

/-- C2: whenever `parse_markers` finishes (returns instead of raising),
the emitted command sequences contain exactly as many `ROW_OPEN` as
`ROW_CLOSE` commands.  (With the source as written, a run can only finish
on a document without grid markers — a row-open line raises
`AttributeError` inside `parse_row_args`, an unmatched close raises
`IndexError`, and the end-of-document recovery raises `KeyError` — and
then both counts are zero.) -/
theorem parse_markers_balance (lines : List String) (profile : Option String)
    (rows : RowsMap) (cmds : CmdsMap) (r2c : R2cMap)
    (h : GridPreprocessor.parse_markers lines profile = Except.ok (rows, cmds, r2c)) :
    countCmd GridCmd.ROW_OPEN cmds = countCmd GridCmd.ROW_CLOSE cmds := by
  unfold GridPreprocessor.parse_markers at h
  split at h
  · cases h
  · rename_i st heq
    rw [pmLoop_ok_of_init heq] at h
    simp [initState] at h
    obtain ⟨h1, h2, h3⟩ := h
    subst h2
    rfl

/-- Witness for `parse_markers_balance`: a document with no markers. -/
theorem parse_markers_balance_witness :
    GridPreprocessor.parse_markers ["hello", "world"] none = Except.ok ([], [], []) ∧
    countCmd GridCmd.ROW_OPEN [] = countCmd GridCmd.ROW_CLOSE [] :=
  ⟨rfl, parse_markers_balance ["hello", "world"] none [] [] [] rfl⟩

/-- Unfolding `classify line = notAMarker` into the three pattern tests. -/
lemma classify_notAMarker {line : String} (h : classify line = Marker.notAMarker) :
    rowOpenMatch line.data = none ∧ rowCloseMatch line.data = false ∧
      colSepMatch line.data = false := by
  unfold classify at h
  split at h
  · cases h
  · rename_i heq
    by_cases h1 : rowCloseMatch line.data = true
    · rw [if_pos (by simp [h1])] at h
      cases h
    · by_cases h2 : colSepMatch line.data = true
      · rw [if_neg (by simp [h1]), if_pos (by simp [h2])] at h
        cases h
      · exact ⟨heq, by simpa using h1, by simpa using h2⟩

/-- A non-marker line leaves the parse state untouched. -/
lemma pmStep_notAMarker {profile : Option String} {st : PMState} {n : Nat}
    {line : String} (h : classify line = Marker.notAMarker) :
    pmStep profile st n line = Except.ok st := by
  obtain ⟨h1, h2, h3⟩ := classify_notAMarker h
  unfold pmStep
  rw [h1]
  rw [if_neg (by simp [h2]), if_neg (by simp [h3])]

/-- A marker-free tail of the document leaves the parse state untouched. -/
lemma pmLoop_notAMarker {profile : Option String} {ls : List String}
    (h : ∀ line ∈ ls, classify line = Marker.notAMarker) :
    ∀ st n, pmLoop profile st n ls = Except.ok st := by
  induction ls with
  | nil => intro st n; rfl
  | cons l rest ih =>
    intro st n
    unfold pmLoop
    rw [pmStep_notAMarker (h l (List.mem_cons_self l rest))]
    exact ih (fun x hx => h x (List.mem_cons_of_mem l hx)) st (n + 1)

/-- C7: on a document in which no line is classified as a marker, the
whole preprocessor pass (`parse_markers`, `populate_cmd_params`,
`replace_markers`) returns the document's lines unchanged, whatever the
configuration. -/
theorem run_identity_no_markers (config : GridConfig) (lines : List String)
    (h : ∀ line ∈ lines, classify line = Marker.notAMarker) :
    GridPreprocessor.run config lines = Except.ok lines := by
  unfold GridPreprocessor.run GridPreprocessor.parse_markers
  simp only [pmLoop_notAMarker h]
  rfl

/-- Witness for `run_identity_no_markers`: a two-line prose document. -/
theorem run_identity_no_markers_witness :
    GridPreprocessor.run [] ["hello", "- world -"] = Except.ok ["hello", "- world -"] :=
  run_identity_no_markers [] ["hello", "- world -"] (by decide)

/-- A row-close or col-sep marker line reached with an empty row stack
makes the scan raise `IndexError` (`row_stack.pop()` or `row_stack[-1]`
on the empty stack); a row-open line can only occur strictly later. -/
lemma pmLoop_underflow {profile : Option String} :
    ∀ (ls : List String) (n i : Nat), i < ls.length →
    (rowCloseMatch (ls.getD i "").data = true ∨ colSepMatch (ls.getD i "").data = true) →
    (∀ j, j < i → rowOpenMatch (ls.getD j "").data = none) →
    pmLoop profile initState n ls = Except.error PyErr.indexError := by
  intro ls
  induction ls with
  | nil => intro n i hi _ _; cases hi
  | cons l rest ih =>
    intro n i hi hm hj
    have key : (rowCloseMatch l.data = true ∨ colSepMatch l.data = true) →
        pmLoop profile initState n (l :: rest) = Except.error PyErr.indexError := by
      intro hcs
      have hro : rowOpenMatch l.data = none := by
        cases hma : rowOpenMatch l.data with
        | none => rfl
        | some a =>
          exfalso
          have hsome : (rowOpenMatch l.data).isSome = true := by rw [hma]; rfl
          rcases hcs with hc | hc
          · rw [rowOpen_excl_rowClose hsome] at hc; cases hc
          · rw [rowOpen_excl_colSep hsome] at hc; cases hc
      unfold pmLoop pmStep
      rw [hro]
      by_cases hrc : rowCloseMatch l.data = true
      · rw [if_pos (by simp [hrc])]
        rw [show initState.row_stack.getLast? = none from rfl]
      · have hcsep : colSepMatch l.data = true := by
          rcases hcs with hc | hc
          · exact absurd hc hrc
          · exact hc
        rw [if_neg (by simp [hrc]), if_pos (by simp [hcsep])]
        rw [show initState.row_stack.getLast? = none from rfl]
    cases i with
    | zero => exact key (by simpa using hm)
    | succ k =>
      by_cases hcs : rowCloseMatch l.data = true ∨ colSepMatch l.data = true
      · exact key hcs
      · push_neg at hcs
        have hro : rowOpenMatch l.data = none := by
          have := hj 0 (Nat.succ_pos k)
          simpa using this
        have hcl : classify l = Marker.notAMarker := by
          unfold classify
          rw [hro]
          rw [if_neg (by simp [hcs.1]), if_neg (by simp [hcs.2])]
        unfold pmLoop
        rw [pmStep_notAMarker hcl]
        exact ih (n + 1) k (by simpa using hi) (by simpa using hm)
          (fun j hjk => by
            have := hj (j + 1) (by omega)
            simpa using this)

/-- C10: if some line of the document is a row-close or col-sep marker
and no earlier line is a row-open marker (so the nesting stack is empty
when that line is reached), `parse_markers` raises `IndexError` instead
of ignoring the line or recovering. -/
theorem parse_markers_underflow (lines : List String) (profile : Option String)
    (i : Nat) (hi : i < lines.length)
    (hm : rowCloseMatch (lines.getD i "").data = true ∨
          colSepMatch (lines.getD i "").data = true)
    (hj : ∀ j, j < i → rowOpenMatch (lines.getD j "").data = none) :
    GridPreprocessor.parse_markers lines profile = Except.error PyErr.indexError := by
  unfold GridPreprocessor.parse_markers
  rw [pmLoop_underflow lines 0 i hi hm hj]

/-- Witness for `parse_markers_underflow`: a document whose only line is
a row-close marker. -/
theorem parse_markers_underflow_witness :
    GridPreprocessor.parse_markers ["text", "-- end --"] none =
      Except.error PyErr.indexError :=
  parse_markers_underflow ["text", "-- end --"] none 1 (by decide)
    (Or.inl (by decide))
    (fun j hjk => by
      interval_cases j
      decide)

/-! ## Lemmas about the dict model -/

lemma lookupD_cons {α : Type} (a : Nat × α) (d : List (Nat × α)) (k : Nat) :
    lookupD (a :: d) k = if a.1 == k then some a.2 else lookupD d k := by
  unfold lookupD
  rw [List.find?_cons]
  cases h : (a.1 == k) <;> simp [h]

lemma lookupD_not_mem {α : Type} (d : List (Nat × α)) (k : Nat)
    (h : ∀ p ∈ d, p.1 ≠ k) : lookupD d k = none := by
  unfold lookupD
  cases hfd : d.find? (fun p => p.1 == k) with
  | none => rfl
  | some w =>
    have h1 := List.find?_some hfd
    have h2 := List.mem_of_find?_eq_some hfd
    exact absurd (by simpa using h1) (h w h2)

lemma lookupD_map_ne {α : Type} (d : List (Nat × α)) (k : Nat) (v : α) (j : Nat)
    (hjk : (k == j) = false) :
    lookupD (d.map (fun p => if p.1 == k then (k, v) else p)) j = lookupD d j := by
  induction d with
  | nil => rfl
  | cons a t ih =>
    rw [List.map_cons]
    by_cases ha : (a.1 == k) = true
    · have ha' : a.1 = k := by simpa using ha
      rw [if_pos ha, lookupD_cons, lookupD_cons, ha']
      simp only [hjk, Bool.false_eq_true, if_false]
      exact ih
    · rw [if_neg ha, lookupD_cons, lookupD_cons]
      cases h : (a.1 == j) with
      | false => rw [if_neg (by simp [h]), if_neg (by simp [h])]; exact ih
      | true => rw [if_pos (by simp [h]), if_pos (by simp [h])]

lemma lookupD_map_self {α : Type} (d : List (Nat × α)) (k : Nat) (v : α)
    (hf : (d.find? (fun p => p.1 == k)).isSome = true) :
    lookupD (d.map (fun p => if p.1 == k then (k, v) else p)) k = some v := by
  induction d with
  | nil => simp [List.find?] at hf
  | cons a t ih =>
    rw [List.map_cons]
    by_cases ha : (a.1 == k) = true
    · rw [if_pos ha, lookupD_cons]
      simp
    · rw [if_neg ha, lookupD_cons, if_neg (by simpa using ha)]
      apply ih
      rw [List.find?_cons, show (a.1 == k) = false by simpa using ha] at hf
      simpa using hf

lemma lookupD_append_single {α : Type} (d : List (Nat × α)) (k : Nat) (v : α) (j : Nat) :
    lookupD (d ++ [(k, v)]) j =
      match lookupD d j with
      | some w => some w
      | none => if k == j then some v else none := by
  induction d with
  | nil =>
    show lookupD [(k, v)] j = _
    rw [lookupD_cons]
    rfl
  | cons a t ih =>
    rw [List.cons_append, lookupD_cons, lookupD_cons]
    cases h : (a.1 == j) <;> simp [h, ih]

/-- The dict-assignment law: after `d[k] = v`, looking up `k` yields `v`
and every other key is unchanged. -/
lemma lookupD_insertD {α : Type} (d : List (Nat × α)) (k : Nat) (v : α) (j : Nat) :
    lookupD (insertD d k v) j = if k == j then some v else lookupD d j := by
  unfold insertD
  by_cases hf : (d.find? (fun p => p.1 == k)).isSome = true
  · rw [if_pos hf]
    by_cases hkj : (k == j) = true
    · have hj : k = j := by simpa using hkj
      subst hj
      rw [if_pos hkj]
      exact lookupD_map_self d k v hf
    · rw [if_neg hkj]
      exact lookupD_map_ne d k v j (by simpa using hkj)
  · rw [if_neg hf]
    rw [lookupD_append_single]
    by_cases hkj : (k == j) = true
    · have hj : k = j := by simpa using hkj
      subst hj
      have hnone : lookupD d k = none := by
        unfold lookupD
        cases hfd : d.find? (fun p => p.1 == k) with
        | none => rfl
        | some w => rw [hfd] at hf; simp at hf
      rw [hnone]
    · cases hld : lookupD d j <;> simp [hld, hkj]

/-! ## Lemmas about list indexing used by the rewriter -/

lemma getD_set_self (l : List String) (k : Nat) (v d : String) (h : k < l.length) :
    (l.set k v).getD k d = v := by
  induction l generalizing k with
  | nil => cases h
  | cons a t ih =>
    cases k with
    | zero => rfl
    | succ m => exact ih m (by simpa using h)

lemma getD_set_ne (l : List String) (k i : Nat) (v d : String) (h : i ≠ k) :
    (l.set k v).getD i d = l.getD i d := by
  induction l generalizing k i with
  | nil => rfl
  | cons a t ih =>
    cases k with
    | zero =>
      cases i with
      | zero => exact absurd rfl h
      | succ m => rfl
    | succ km =>
      cases i with
      | zero => rfl
      | succ m => exact ih km m (by omega)

/-- C6: `replace_markers` rewrites exactly the lines whose indices are
keys of the commands mapping (to their serialized tag), leaves every
other line unchanged, and preserves the line count.  The hypotheses are
the dict invariants guaranteed by `parse_markers`: every key is a line
number of the document, and keys are unique. -/
theorem replace_markers_frame (lines : List String) (cmds : CmdsMap)
    (hk : ∀ p ∈ cmds, p.1 < lines.length)
    (hnd : (cmds.map (fun p => p.1)).Nodup) :
    ∃ lines1,
      GridPreprocessor.replace_markers lines cmds = Except.ok lines1 ∧
      lines1.length = lines.length ∧
      (∀ i, lookupD cmds i = none → lines1.getD i "" = lines.getD i "") ∧
      (∀ i cs, lookupD cmds i = some cs → lines1.getD i "" = lineTag cs) := by
  induction cmds generalizing lines with
  | nil =>
    exact ⟨lines, rfl, rfl, fun i _ => rfl,
      fun i cs hcs => by simp [lookupD, List.find?] at hcs⟩
  | cons a rest ih =>
    obtain ⟨k, cs⟩ := a
    have hk0 : k < lines.length := hk (k, cs) (List.mem_cons_self _ _)
    have hnd1 : (k :: rest.map (fun p => p.1)).Nodup := by simpa using hnd
    have hknotin : k ∉ rest.map (fun p => p.1) := (List.nodup_cons.mp hnd1).1
    obtain ⟨lines1, h1, h2, h3, h4⟩ := ih (lines.set k (lineTag cs))
      (fun p hp => by rw [List.length_set]; exact hk p (List.mem_cons_of_mem _ hp))
      (List.nodup_cons.mp hnd1).2
    refine ⟨lines1, ?_, by rw [h2, List.length_set], ?_, ?_⟩
    · show GridPreprocessor.replace_markers lines ((k, cs) :: rest) = Except.ok lines1
      unfold GridPreprocessor.replace_markers
      rw [if_pos hk0]
      exact h1
    · intro i hi
      rw [lookupD_cons] at hi
      by_cases hki : (k == i) = true
      · rw [if_pos hki] at hi; cases hi
      · rw [if_neg hki] at hi
        rw [h3 i hi]
        exact getD_set_ne lines k i _ "" (fun he => by simp [he] at hki)
    · intro i cs' hi
      rw [lookupD_cons] at hi
      by_cases hki : (k == i) = true
      · have hik : k = i := by simpa using hki
        subst hik
        rw [if_pos hki] at hi
        injection hi with hi2
        subst hi2
        have hrestnone : lookupD rest k = none :=
          lookupD_not_mem rest k
            (fun p hp he => hknotin (he ▸ List.mem_map_of_mem _ hp))
        rw [h3 k hrestnone]
        exact getD_set_self lines k _ "" hk0
      · rw [if_neg hki] at hi
        exact h4 i cs' hi

/-- Witness for `replace_markers_frame`: three lines, one marker line. -/
theorem replace_markers_frame_witness :
    ∃ lines1,
      GridPreprocessor.replace_markers ["a", "b", "c"]
        [(1, [GridCmdInfo.mk GridCmd.COL_OPEN (some (some "span4"))])] =
        Except.ok lines1 ∧
      lines1.length = (["a", "b", "c"] : List String).length ∧
      (∀ i, lookupD [(1, [GridCmdInfo.mk GridCmd.COL_OPEN (some (some "span4"))])] i = none →
        lines1.getD i "" = (["a", "b", "c"] : List String).getD i "") ∧
      (∀ i cs, lookupD [(1, [GridCmdInfo.mk GridCmd.COL_OPEN (some (some "span4"))])] i = some cs →
        lines1.getD i "" = lineTag cs) :=
  replace_markers_frame ["a", "b", "c"]
    [(1, [GridCmdInfo.mk GridCmd.COL_OPEN (some (some "span4"))])]
    (by decide) (by decide)

/-! ## Lemmas about the style propagator -/

/-- The predicate the inner loop of `populate_cmd_params` searches for:
the command list contains a `COL_OPEN`. -/
def hasColOpen (cs : List GridCmdInfo) : Bool :=
  cs.any (fun c => c.cmdtype == GridCmd.COL_OPEN)

/-- Set the `style` slot of the first `COL_OPEN` of a command list. -/
def setStyleFirst (v : Option (Option String)) : List GridCmdInfo → List GridCmdInfo
  | [] => []
  | c :: rest =>
    if c.cmdtype == GridCmd.COL_OPEN then GridCmdInfo.mk c.cmdtype v :: rest
    else c :: setStyleFirst v rest

lemma getLast?_none_nil {α : Type} {l : List α} (h : l.getLast? = none) : l = [] := by
  cases l with
  | nil => rfl
  | cons a t =>
    exfalso
    have h2 : (a :: t).getLast?.isSome = true := by
      rw [List.getLast?_isSome]
      simp
    rw [h] at h2
    cases h2

/-- On a command list containing a `COL_OPEN`, `assignFirst` sets the
first `COL_OPEN`'s style to the last of `styles` (the next one in
declaration order, since the caller reversed the list) or to the default
when `styles` is exhausted, and pops that style. -/
lemma assignFirst_spec (cs : List GridCmdInfo) (styles : List String)
    (d : Option String) (h : hasColOpen cs = true) :
    assignFirst cs styles d =
      (setStyleFirst (some (match styles.getLast? with
                            | some x => some x
                            | none => d)) cs,
       styles.dropLast) := by
  induction cs with
  | nil => simp [hasColOpen] at h
  | cons c rest ih =>
    by_cases hc : (c.cmdtype == GridCmd.COL_OPEN) = true
    · cases hgl : styles.getLast? with
      | none =>
        have hnil : styles = [] := getLast?_none_nil hgl
        subst hnil
        simp [assignFirst, setStyleFirst, hc, pyPopLast]
      | some x =>
        simp [assignFirst, setStyleFirst, hc, pyPopLast, hgl]
    · have h' : hasColOpen rest = true := by
        simp only [hasColOpen, List.any_cons, Bool.or_eq_true] at h
        rcases h with h | h
        · exact absurd h hc
        · exact h
      simp [assignFirst, setStyleFirst, hc, ih h']

lemma dropLast_reverse_eq {α : Type} (l : List α) :
    l.reverse.dropLast = l.tail.reverse := by
  cases l with
  | nil => rfl
  | cons a t => rw [List.reverse_cons, List.dropLast_concat]; rfl

/-- The style consumed for the first column, when the caller passes the
reversed declaration list. -/
lemma revLast_style (declared : List String) (d : Option String) :
    (match declared.reverse.getLast? with
     | some x => some x
     | none => d) = (declared.map some).getD 0 d := by
  cases declared with
  | nil => rfl
  | cons a t =>
    rw [show (a :: t).reverse.getLast? = some a by
      rw [List.reverse_cons, List.getLast?_concat]]
    rfl

lemma getD_map_some (l : List String) (k : Nat) (ds : String) :
    (l.map some).getD k (some ds) = some (l.getD k ds) := by
  induction l generalizing k with
  | nil => rfl
  | cons a t ih =>
    cases k with
    | zero => rfl
    | succ m => exact ih m

/-- Looking up a key of the graph of `bodies` over `cols`. -/
lemma lookupD_graph (bodies : Nat → List GridCmdInfo) :
    ∀ (cols : List Nat) (c : Nat), c ∈ cols →
      lookupD (cols.map (fun x => (x, bodies x))) c = some (bodies c) := by
  intro cols
  induction cols with
  | nil => intro c hc; cases hc
  | cons a t ih =>
    intro c hc
    rw [List.map_cons, lookupD_cons]
    by_cases ha : (a == c) = true
    · have ha' : a = c := by simpa using ha
      subst ha'
      rw [if_pos (by simp)]
    · rw [if_neg (by simpa using ha)]
      rcases List.mem_cons.mp hc with he | ht
      · exact absurd he.symm (by simpa using ha)
      · exact ih c ht

/-- The column loop of `populate_cmd_params`, started on the reversed
declaration list: the `k`-th column line's first `COL_OPEN` receives the
`k`-th declared style, or the default once the declarations run out;
other keys of the mapping are untouched. -/
lemma procCols_spec (bodies : Nat → List GridCmdInfo) (d : Option String) :
    ∀ (cols : List Nat) (declared : List String) (cmds : CmdsMap),
      cols.Nodup →
      (∀ c ∈ cols, lookupD cmds c = some (bodies c)) →
      (∀ c ∈ cols, hasColOpen (bodies c) = true) →
      ∃ q, procCols cmds declared.reverse d cols = Except.ok q ∧
        (∀ k, (hk : k < cols.length) → lookupD q.1 (cols.get ⟨k, hk⟩) =
          some (setStyleFirst (some ((declared.map some).getD k d))
            (bodies (cols.get ⟨k, hk⟩)))) ∧
        (∀ c, c ∉ cols → lookupD q.1 c = lookupD cmds c) := by
  intro cols
  induction cols with
  | nil =>
    intro declared cmds _ _ _
    exact ⟨(cmds, declared.reverse), rfl,
      fun k hk => absurd hk (Nat.not_lt_zero k), fun c _ => rfl⟩
  | cons c0 cols ih =>
    intro declared cmds hnd hlook hops
    have hlook0 : lookupD cmds c0 = some (bodies c0) :=
      hlook c0 (List.mem_cons_self _ _)
    have hop0 : hasColOpen (bodies c0) = true := hops c0 (List.mem_cons_self _ _)
    have hc0notin : c0 ∉ cols := (List.nodup_cons.mp hnd).1
    have h1 : assignFirst (bodies c0) declared.reverse d =
        (setStyleFirst (some ((declared.map some).getD 0 d)) (bodies c0),
         declared.tail.reverse) := by
      rw [assignFirst_spec _ _ _ hop0, revLast_style, dropLast_reverse_eq]
    have hstep : procCols cmds declared.reverse d (c0 :: cols) =
        procCols (insertD cmds c0
            (setStyleFirst (some ((declared.map some).getD 0 d)) (bodies c0)))
          declared.tail.reverse d cols := by
      conv_lhs => rw [procCols]
      rw [hlook0]
      show (let r := assignFirst (bodies c0) declared.reverse d
            procCols (insertD cmds c0 r.1) r.2 d cols) = _
      rw [h1]
    obtain ⟨q, hq, hget, hframe⟩ := ih declared.tail
      (insertD cmds c0 (setStyleFirst (some ((declared.map some).getD 0 d)) (bodies c0)))
      (List.nodup_cons.mp hnd).2
      (fun c hc => by
        rw [lookupD_insertD,
          if_neg (by simp only [beq_iff_eq]; exact fun he => hc0notin (he ▸ hc))]
        exact hlook c (List.mem_cons_of_mem _ hc))
      (fun c hc => hops c (List.mem_cons_of_mem _ hc))
    refine ⟨q, by rw [hstep]; exact hq, ?_, ?_⟩
    · intro k hk
      cases k with
      | zero =>
        show lookupD q.1 c0 = _
        rw [hframe c0 hc0notin, lookupD_insertD, if_pos (by simp)]
        rfl
      | succ m =>
        have hm : m < cols.length := by simpa using hk
        have hgd : (declared.tail.map some).getD m d =
            (declared.map some).getD (m + 1) d := by
          cases declared <;> rfl
        have := hget m hm
        rw [hgd] at this
        exact this
    · intro c hc
      have hnotin : c ∉ cols := fun hmem => hc (List.mem_cons_of_mem _ hmem)
      have hne : c ≠ c0 := fun he => hc (he ▸ List.mem_cons_self _ _)
      rw [hframe c hnotin, lookupD_insertD,
        if_neg (by simp only [beq_iff_eq]; exact fun he => hne he.symm)]

/-- C5: `populate_cmd_params` on a row with declared styles `declared`
and column lines `cols` (each column line's command list containing a
`COL_OPEN`, as `parse_markers` guarantees) assigns the `k`-th column's
first `COL_OPEN` the `k`-th declared style in document order, and the
default style to every column beyond the number of declared styles;
declared styles beyond the column count are unused. -/
theorem populate_cmd_params_assigns (r : Nat) (declared : List String)
    (cols : List Nat) (bodies : Nat → List GridCmdInfo) (defStyle : String)
    (hnd : cols.Nodup)
    (hops : ∀ c ∈ cols, hasColOpen (bodies c) = true) :
    ∃ cmds1,
      GridPreprocessor.populate_cmd_params [(r, declared)]
        (cols.map (fun c => (c, bodies c))) [(r, cols)] (some defStyle) =
        Except.ok cmds1 ∧
      ∀ k, (hk : k < cols.length) → lookupD cmds1 (cols.get ⟨k, hk⟩) =
        some (setStyleFirst (some (some (declared.getD k defStyle)))
          (bodies (cols.get ⟨k, hk⟩))) := by
  obtain ⟨q, hq, hget, _⟩ := procCols_spec bodies (some defStyle) cols declared
    (cols.map (fun c => (c, bodies c))) hnd (lookupD_graph bodies cols) hops
  refine ⟨q.1, ?_, ?_⟩
  · unfold GridPreprocessor.populate_cmd_params popLoop
    rw [show lookupD [(r, cols)] r = some cols by rw [lookupD_cons]; simp]
    show (match procCols (cols.map fun c => (c, bodies c)) declared.reverse
            (some defStyle) cols with
          | Except.error e => Except.error e
          | Except.ok p => popLoop [(r, cols)] (some defStyle) [] p.1) =
        Except.ok q.1
    rw [hq]
    rfl
  · intro k hk
    rw [hget k hk, getD_map_some]

/-- Witness for `populate_cmd_params_assigns`: a row opened with two
declared styles and containing three columns; by the theorem's
conclusion at `k = 2`, the third column receives the default style
(`["span4", "span8"].getD 2 "span1" = "span1"`) while the first two get
the declared styles. -/
theorem populate_cmd_params_assigns_witness :
    ∃ cmds1,
      GridPreprocessor.populate_cmd_params [(10, ["span4", "span8"])]
        (([10, 12, 14] : List Nat).map (fun c =>
          (c, if c == 10 then
                [GridCmdInfo.mk GridCmd.ROW_OPEN none, GridCmdInfo.mk GridCmd.COL_OPEN none]
              else
                [GridCmdInfo.mk GridCmd.COL_CLOSE none, GridCmdInfo.mk GridCmd.COL_OPEN none])))
        [(10, [10, 12, 14])] (some "span1") = Except.ok cmds1 ∧
      ∀ k, (hk : k < ([10, 12, 14] : List Nat).length) →
        lookupD cmds1 (([10, 12, 14] : List Nat).get ⟨k, hk⟩) =
          some (setStyleFirst
            (some (some ((["span4", "span8"] : List String).getD k "span1")))
            (if ([10, 12, 14] : List Nat).get ⟨k, hk⟩ == 10 then
                [GridCmdInfo.mk GridCmd.ROW_OPEN none, GridCmdInfo.mk GridCmd.COL_OPEN none]
              else
                [GridCmdInfo.mk GridCmd.COL_CLOSE none, GridCmdInfo.mk GridCmd.COL_OPEN none])) :=
  populate_cmd_params_assigns 10 ["span4", "span8"] [10, 12, 14]
    (fun c => if c == 10 then
        [GridCmdInfo.mk GridCmd.ROW_OPEN none, GridCmdInfo.mk GridCmd.COL_OPEN none]
      else
        [GridCmdInfo.mk GridCmd.COL_CLOSE none, GridCmdInfo.mk GridCmd.COL_OPEN none])
    "span1" (by decide) (by decide)

/-! ## The `AttributeError` slips -/

/-- C1: a document with an opened-but-never-closed row does not complete
with synthesized close commands: `parse_markers` raises.  The row-open
line itself already raises `AttributeError` inside `parse_row_args`
(nonexistent `GridConf.BOOTSTRAP`); were that repaired, the recovery
branch's first statement `cmds[-1].append(...)` would raise `KeyError`,
since `-1` is never a key of the commands dict. -/
theorem parse_markers_unclosed_row_raises :
    GridPreprocessor.parse_markers ["Intro text.", "-- row --", "column text"] none =
      Except.error PyErr.attributeError := rfl

/-- C3: `parse_row_args` on the docstring's own example raises
`AttributeError` instead of returning the documented list.  The first
conjunct shows the split-and-normalize steps the function performs
before the failing statement do produce the documented tokens. -/
theorem parse_row_args_docstring_example_raises :
    ((pySplitComma "span4 offset4, span4, span2".data).map
        (fun t => collapseWs (String.mk t)) =
      ["span4 offset4", "span4", "span2"]) ∧
    Parsers.parse_row_args "span4 offset4, span4, span2" none =
      Except.error PyErr.attributeError :=
  ⟨by decide, rfl⟩

/-- C4: `expand_shortcuts` itself performs exactly the documented
profile-gated expansion (`4:1` to `span4 offset1`, `6` to `span6`,
pass-through for non-Bootstrap profiles and non-matching tokens), but
`parse_row_args` on the docstring's shorthand example raises
`AttributeError` before ever calling it. -/
theorem expand_shortcuts_and_profile_bug :
    Parsers.expand_shortcuts "4:1" true = "span4 offset1" ∧
    Parsers.expand_shortcuts "6" true = "span6" ∧
    Parsers.expand_shortcuts "8" false = "8" ∧
    Parsers.expand_shortcuts "span4 offset1" true = "span4 offset1" ∧
    Parsers.parse_row_args "4:1, 4, 3" (some "bootstrap") =
      Except.error PyErr.attributeError :=
  ⟨by decide, by decide, by decide, by decide, rfl⟩

/-- C8: on a document consisting of a row-open line, a col-sep line and a
row-close line (each correctly classified, as the first three conjuncts
show), `parse_markers` raises `AttributeError` at the row-open line and
emits no command sequence at all, instead of emitting
`[ROW_OPEN, COL_OPEN]` / `[COL_CLOSE, COL_OPEN]` / `[COL_CLOSE,
ROW_CLOSE]` for the three lines. -/
theorem parse_markers_no_commands_emitted :
    classify "-- row --" = Marker.rowOpen "" ∧
    classify "--" = Marker.colSep ∧
    classify "-- end --" = Marker.rowClose ∧
    GridPreprocessor.parse_markers ["-- row --", "--", "-- end --"] none =
      Except.error PyErr.attributeError :=
  ⟨by decide, by decide, by decide, rfl⟩
